import Mathlib

/-!
Verification development for the dependency-resolution engine of the
context-generator repository (`code_processor.py`).  The Python code is
shallowly embedded: strings are Lean `String`s, Python `set`s of paths are
Lean `List String` read up to membership, dictionaries are association
lists, and the POSIX behaviour of `os.path.join/abspath/normpath/relpath`
is modelled by executable character-list functions below.
-/

namespace CtxGen

/-- Auxiliary for `splitChar`: accumulates the current piece (reversed). -/
def splitCharAux (c : Char) : List Char → List Char → List (List Char)
  | [], acc => [acc.reverse]
  | x :: xs, acc =>
    if x = c then acc.reverse :: splitCharAux c xs [] else splitCharAux c xs (x :: acc)

/-- Python `str.split(sep)` for a one-character separator: keeps empty pieces,
and splitting the empty string yields `[""]`. -/
def splitChar (c : Char) (s : String) : List String :=
  (splitCharAux c s.toList []).map String.mk

/-- Python `str.startswith(pre)` as a character-list prefix test. -/
def strStarts (s pre : String) : Bool :=
  pre.toList.isPrefixOf s.toList

/-- Python `str.endswith(suf)` as a character-list suffix test. -/
def strEnds (s suf : String) : Bool :=
  suf.toList.isSuffixOf s.toList

/-- Python `sep.join(pieces)`. -/
def joinSep (sep : String) : List String → String
  | [] => ""
  | [x] => x
  | x :: xs => x ++ sep ++ joinSep sep xs

/-- Python `str.replace(a, b)` for one-character `a` and `b`. -/
def replaceChar (a b : Char) (s : String) : String :=
  String.mk (s.toList.map fun c => if c = a then b else c)

/-- POSIX `os.path.join` for two components (`posixpath.join`): an absolute
second component resets the result. -/
def ospJoin (a b : String) : String :=
  if strStarts b "/" then b
  else if a = "" then b
  else if strEnds a "/" then a ++ b
  else a ++ "/" ++ b

/-- One step of `posixpath.normpath`'s component scan: drop empty and `"."`
components, keep `".."` when the path is relative and nothing can be popped
(or the top is already `".."`), otherwise pop. -/
def npStep (isAbs : Bool) (acc : List String) (c : String) : List String :=
  if c = "" ∨ c = "." then acc
  else if c ≠ ".." ∨ (¬ isAbs ∧ acc = []) ∨ acc.getLast? = some ".." then acc ++ [c]
  else if acc ≠ [] then acc.dropLast
  else acc

/-- POSIX `os.path.normpath`, including the special case that exactly two
leading slashes are preserved. -/
def normpath (p : String) : String :=
  if p = "" then "."
  else
    let slashes : Nat :=
      if strStarts p "//" ∧ ¬ strStarts p "///" then 2
      else if strStarts p "/" then 1 else 0
    let comps := splitChar '/' p
    let newComps := comps.foldl (npStep (0 < slashes)) []
    let pre := if slashes = 2 then "//" else if slashes = 1 then "/" else ""
    let r := pre ++ joinSep "/" newComps
    if r = "" then "." else r

/-- POSIX `os.path.abspath`: join onto the working directory when the path is
relative, then normalize. -/
def abspath (cwd p : String) : String :=
  if strStarts p "/" then normpath p else normpath (ospJoin cwd p)

/-- Length of the longest common prefix of two component lists
(`genericpath.commonprefix` on split paths, as used by `relpath`). -/
def commonPrefixLen : List String → List String → Nat
  | a :: as, b :: bs => if a = b then commonPrefixLen as bs + 1 else 0
  | _, _ => 0

/-- POSIX `os.path.relpath path start`: both arguments are made absolute,
split into non-empty components, the common prefix is stripped, and the
remainder of `start` becomes `".."` hops. -/
def relpath (cwd path start : String) : String :=
  let pl := (splitChar '/' (abspath cwd path)).filter (fun x => x ≠ "")
  let sl := (splitChar '/' (abspath cwd start)).filter (fun x => x ≠ "")
  let i := commonPrefixLen sl pl
  let rel := List.replicate (sl.length - i) ".." ++ pl.drop i
  if rel = [] then "." else joinSep "/" rel

/-- Position one past the last `'/'` in the character list (0 when absent),
mirroring `p.rfind('/') + 1` in `posixpath.dirname`. -/
def rfindSlashP1 : List Char → Nat
  | [] => 0
  | c :: rest =>
    let r := rfindSlashP1 rest
    if 0 < r then r + 1 else if c = '/' then 1 else 0

/-- POSIX `os.path.dirname`: the head up to the last slash, with trailing
slashes stripped unless the head is all slashes. -/
def dirname (p : String) : String :=
  let cs := p.toList
  let head := cs.take (rfindSlashP1 cs)
  if head ≠ [] ∧ head.any (fun c => c ≠ '/') then
    String.mk ((head.reverse.dropWhile (fun c => c = '/')).reverse)
  else String.mk head

/-- The absolute form computed at the top of
`RobustDependencyAnalyzer.normalize_path` (code_processor.py:143-146):
`os.path.abspath(os.path.join(project_root, base_d, p_str))`, where the
three-argument join folds left and the branch on `base_d` mirrors Python's
truthiness test.  `cwd` is the process working directory consumed by
`abspath` (irrelevant whenever `root` is absolute, as the analyzer
guarantees by construction). -/
def normalize_path_abs (cwd root p_str base_d : String) : String :=
  if base_d ≠ "" then abspath cwd (ospJoin (ospJoin root base_d) p_str)
  else abspath cwd (ospJoin root p_str)

/-- `RobustDependencyAnalyzer.normalize_path` (code_processor.py:141-152):
rejects the path when the absolute form does not *string-prefix*-match the
project root, else returns `normpath(relpath(abs_p, root))` with
backslashes replaced by slashes.  The Python `except (ValueError, OSError)`
branch cannot fire in this POSIX string model (those errors arise only from
Windows drive mismatches or NUL bytes) and is therefore not modelled. -/
def normalize_path (cwd root p_str base_d : String) : Option String :=
  let abs_p := normalize_path_abs cwd root p_str base_d
  if strStarts abs_p root then
    some (replaceChar '\\' '/' (normpath (relpath cwd abs_p root)))
  else none

/-- The `while parts and parts[0] == ''` loop of `_resolve_python_import`
(code_processor.py:177-179): count and drop the leading empty pieces. -/
def countLeadingEmpties : List String → Nat × List String
  | "" :: rest =>
    let r := countLeadingEmpties rest
    (r.1 + 1, r.2)
  | l => (0, l)

/-- `RobustDependencyAnalyzer._resolve_python_import`
(code_processor.py:170-196).  For a relative specifier the dot count is
recovered by splitting on `'.'` and counting leading empty pieces; the
guard `level - 1 > len(current_parts)` and the slice
`current_parts[:-(level-1)]` are reproduced with truncated `Nat`
subtraction (`level ≥ 1` in that branch, so the arithmetic agrees with
Python's).  Candidates `<path>.py` and `<path>/__init__.py` are normalized
and kept when non-empty (Python truthiness) and present in `all_files`. -/
def resolve_python_import (cwd root : String) (impStr current_dir : String)
    (all_files : List String) : List String :=
  let parts := splitChar '.' impStr
  let module_path_parts : Option (List String) :=
    if strStarts impStr "." then
      let lv := countLeadingEmpties parts
      let current_parts :=
        if current_dir ≠ "" ∧ current_dir ≠ "." then splitChar '/' current_dir else []
      if current_parts.length < lv.1 - 1 then none
      else some
        ((if 1 < lv.1 then current_parts.take (current_parts.length - (lv.1 - 1))
          else current_parts) ++ lv.2)
    else some (splitChar '/' (replaceChar '.' '/' impStr))
  match module_path_parts with
  | none => []
  | some mpp =>
    let module_base_path := joinSep "/" (mpp.filter (fun x => x ≠ ""))
    let candidates := [module_base_path ++ ".py", module_base_path ++ "/__init__.py"]
    candidates.filterMap fun cand =>
      match normalize_path cwd root cand "" with
      | some n => if n ≠ "" ∧ n ∈ all_files then some n else none
      | none => none

/-- The specifier string added by `ASTPythonAnalyzer.visit_ImportFrom`
(code_processor.py:265-273) for a `from ... import ...` node with the given
module part and relative level: `level` dots prefixed to the module name,
or the bare dots when the module part is falsy; at level 0 the module name
is added only when truthy (`elif module_name`), else nothing. -/
def visit_ImportFrom_specifier (module_name : Option String) (level : Nat) : Option String :=
  if 0 < level then
    let dots := String.mk (List.replicate level '.')
    some (match module_name with
          | some m => if m ≠ "" then dots ++ m else dots
          | none => dots)
  else
    match module_name with
    | some m => if m ≠ "" then some m else none
    | none => none

/-- `analyze_dependencies_python_ast` (code_processor.py:286-301), given the
specifier set collected by the AST visitor (the `ast.parse` walk itself is
outside the string model): each specifier is resolved in `python_module`
mode against the file's directory, and the file's own path is filtered out
(`if rpi != fp`, line 296). -/
def analyze_dependencies_python_ast (cwd root fp : String) (imps : List String)
    (afs : List String) : List String :=
  let cd := dirname fp
  ((imps.map fun s => resolve_python_import cwd root s cd afs).flatten).filter
    (fun rpi => rpi ≠ fp)

/-- The fields of the `FileInfo` dataclass (code_processor.py:89-101) read
by `_analyze_single_file_deps_task`; content-cleaning, size and timestamp
fields play no role in the dependency claims and are omitted. -/
structure FileInfoL where
  path : String
  ext : String
  original_content : String
deriving DecidableEq

/-- Result of one `_analyze_single_file_deps_task` call: the returned
four-tuple plus the cache state after the call, whether the extractor
(`parser_func`) was invoked, and which `file_stats` counter was bumped. -/
structure TaskOut where
  path : String
  deps : List String
  status : String
  err : Option String
  cacheAfter : List (String × List String)
  extractorInvoked : Bool
  statIncrement : Option String
deriving DecidableEq

/-- `_analyze_single_file_deps_task` (code_processor.py:422-438).  The
dependency cache is an association list (newest entry first, matching dict
overwrite via shadowing); `parsers` models `AST_PARSERS_MAP.get` as a map
from extension to an extractor taking the file's path and original
content (the analyzer and project-file-set arguments of the Python
extractors are ambient context fixed inside `parsers`). -/
def analyze_single_file_deps_task
    (parsers : String → Option (String → String → List String))
    (fi : FileInfoL) (cache : List (String × List String)) : TaskOut :=
  match List.lookup fi.path cache with
  | some deps_c =>
    ⟨fi.path, deps_c, "success (cached)", none, cache, false, none⟩
  | none =>
    match parsers fi.ext with
    | some parser_func =>
      let deps_f := parser_func fi.path fi.original_content
      ⟨fi.path, deps_f, "success", none, (fi.path, deps_f) :: cache, true,
        some ("ast_" ++ fi.ext)⟩
    | none =>
      ⟨fi.path, [], "skipped (no AST parser)", none, (fi.path, []) :: cache, false,
        some ("skipped_dep_analysis_" ++ fi.ext)⟩

/-- `MAX_THREADS = os.cpu_count() or 4` (code_processor.py:508): Python's
`or` falls back to 4 only when `cpu_count()` is falsy (`None`, or the
never-observed 0), not when it is a small positive number. -/
def MAX_THREADS (cpuCount : Option Nat) : Nat :=
  match cpuCount with
  | some n => if n = 0 then 4 else n
  | none => 4

/-- Direct-dependency map: path → `direct_dependencies`, the post-Phase-1
view of `all_finfo_map` (every file's `dependency_analysis_status` is past
`"pending"`, which `process_project_folder` guarantees before the
transitive phase starts, so the on-demand branch at
code_processor.py:458-462 is never taken). -/
abbrev DepMap := List (String × List String)

/-- One iteration of the `for dep_path_item in file_info_obj.direct_dependencies`
loop (code_processor.py:465-467): dependencies inside `all_finfo_map` are
expanded by the recursive call `rec` (which receives the memo table and
returns the child's set plus the updated memo); others are skipped.  The
accumulator pair is (transitive set so far, memo table). -/
def transFoldStep (fmap : DepMap) (rec : String → DepMap → List String × DepMap)
    (st : List String × DepMap) (d : String) : List String × DepMap :=
  if (List.lookup d fmap).isSome then
    let q := rec d st.2
    (st.1 ++ q.1, q.2)
  else st

/-- `_recursive_get_trans` (code_processor.py:445-470), fuel-indexed.  The
checks appear in source order: per-branch visited set and depth cap first,
then the memo table, then the `all_finfo_map` lookup.  Each recursive
branch receives `fp :: visited` — the `visited_paths.copy()` of line 467 —
while the memo table threads left-to-right through the dependency loop.
The fuel only bounds the recursion depth of the model; the stability lemma
below shows any fuel of at least `maxDepth + 2 - depth` gives the same
answer, which is exactly the Python function's termination argument. -/
def recTransFuel (fmap : DepMap) (maxDepth : Nat) :
    Nat → String → List String → Nat → DepMap → List String × DepMap
  | 0, _, _, _, memo => ([], memo)
  | fuel + 1, fp, visited, depth, memo =>
    if fp ∈ visited ∨ maxDepth < depth then ([], memo)
    else
      match List.lookup fp memo with
      | some s => (s, memo)
      | none =>
        match List.lookup fp fmap with
        | none => ([], (fp, []) :: memo)
        | some dd =>
          let p := dd.foldl
            (transFoldStep fmap
              (fun d m => recTransFuel fmap maxDepth fuel d (fp :: visited) (depth + 1) m))
            (dd, memo)
          (p.1, (fp, p.1) :: p.2)

/-- `get_transitive_dependencies_for_file` (code_processor.py:440-476):
start at the target with an empty visited set, depth 0 and a fresh memo
table.  `maxDepth + 2` fuel suffices for the depth-capped recursion (see
`recTransFuel_stable`). -/
def get_transitive_dependencies_for_file (fmap : DepMap) (target : String)
    (maxDepth : Nat) : List String :=
  (recTransFuel fmap maxDepth (maxDepth + 2) target [] 0 []).1

/-- The two-file cyclic project A→B→A used by the cycle claims. -/
def cycleMapAB : DepMap := [("A", ["B"]), ("B", ["A"])]

/-- Folding two pointwise-equal step functions gives the same result. -/
theorem foldl_ext_gen {α β : Type} (g₁ g₂ : α → β → α) (h : ∀ a b, g₁ a b = g₂ a b) :
    ∀ (l : List β) (a : α), l.foldl g₁ a = l.foldl g₂ a
  | [], _ => rfl
  | b :: l, a => by
    rw [List.foldl_cons, List.foldl_cons, h, foldl_ext_gen g₁ g₂ h l]

/-- A fold whose step only ever grows the first component keeps the initial
first component as a subset of the final one. -/
theorem foldl_fst_subset {β : Type} (g : (List String × DepMap) → β → (List String × DepMap))
    (hg : ∀ st d, st.1 ⊆ (g st d).1) :
    ∀ (l : List β) (st : List String × DepMap), st.1 ⊆ (l.foldl g st).1
  | [], _ => fun _ hx => hx
  | b :: l, st => by
    rw [List.foldl_cons]
    exact fun x hx => foldl_fst_subset g hg l (g st b) (hg st b hx)

/-- The dependency-loop step never shrinks the accumulated transitive set. -/
theorem transFoldStep_fst_subset (fmap : DepMap)
    (rec : String → DepMap → List String × DepMap)
    (st : List String × DepMap) (d : String) :
    st.1 ⊆ (transFoldStep fmap rec st d).1 := by
  unfold transFoldStep
  by_cases hs : (List.lookup d fmap).isSome
  · rw [if_pos hs]
    show st.1 ⊆ st.1 ++ (rec d st.2).1
    exact List.subset_append_left _ _
  · rw [if_neg hs]
    exact fun _ hx => hx

/-- Fuel irrelevance: any fuel of at least `maxDepth + 2 - depth` yields the
same result, because the depth guard of `_recursive_get_trans` cuts every
branch off after `maxDepth + 1` nested calls.  This is precisely the
termination argument of the Python recursion. -/
theorem recTransFuel_stable (fmap : DepMap) (maxDepth : Nat) :
    ∀ (f₁ f₂ : Nat) (fp : String) (visited : List String) (depth : Nat) (memo : DepMap),
      maxDepth + 2 ≤ f₁ + depth → maxDepth + 2 ≤ f₂ + depth →
      recTransFuel fmap maxDepth f₁ fp visited depth memo
        = recTransFuel fmap maxDepth f₂ fp visited depth memo := by
  intro f₁
  induction f₁ with
  | zero =>
    intro f₂ fp visited depth memo h₁ _
    have hd : maxDepth < depth := by omega
    cases f₂ with
    | zero => rfl
    | succ j => simp [recTransFuel, hd]
  | succ k ih =>
    intro f₂ fp visited depth memo h₁ h₂
    cases f₂ with
    | zero =>
      have hd : maxDepth < depth := by omega
      simp [recTransFuel, hd]
    | succ j =>
      simp only [recTransFuel]
      by_cases hg : fp ∈ visited ∨ maxDepth < depth
      · rw [if_pos hg, if_pos hg]
      · rw [if_neg hg, if_neg hg]
        cases hm : List.lookup fp memo with
        | some s => rfl
        | none =>
          cases hf : List.lookup fp fmap with
          | none => rfl
          | some dd =>
            have hpoint : ∀ (st : List String × DepMap) (d : String),
                transFoldStep fmap
                    (fun d m => recTransFuel fmap maxDepth k d (fp :: visited) (depth + 1) m)
                    st d
                  = transFoldStep fmap
                    (fun d m => recTransFuel fmap maxDepth j d (fp :: visited) (depth + 1) m)
                    st d := by
              intro st d
              by_cases hs : (List.lookup d fmap).isSome
              · simp only [transFoldStep, if_pos hs]
                rw [ih j d (fp :: visited) (depth + 1) st.2 (by omega) (by omega)]
              · simp only [transFoldStep, if_neg hs]
            exact congrArg (fun p => (p.1, (fp, p.1) :: p.2))
              (foldl_ext_gen _ _ hpoint dd (dd, memo))

/-- Claim C1 is false as stated: in the cyclic project A→B→A, file A
appears in its own transitive-dependency set, because the per-branch
visited copy lets the A→B branch re-reach A and B's contribution `{A}` is
unioned into A's closure. -/
theorem C1_counterexample :
    "A" ∈ get_transitive_dependencies_for_file cycleMapAB "A" 20 := by decide

/-- Claim C1, amended: a file never appears in its own direct-dependency
set — the Python extractor filters its own path out of every resolved
specifier (`if rpi != fp`, and the JS/C/HTML extractors carry the same
guard) — but a file on a dependency cycle can appear in its own
transitive-dependency set, as the cycle A→B→A shows for A. -/
theorem C1_no_self_direct_amended :
    (∀ (cwd root fp : String) (imps afs : List String),
        fp ∉ analyze_dependencies_python_ast cwd root fp imps afs) ∧
    "A" ∈ get_transitive_dependencies_for_file cycleMapAB "A" 20 := by
  refine ⟨?_, by decide⟩
  intro cwd root fp imps afs hmem
  simp only [analyze_dependencies_python_ast, List.mem_filter] at hmem
  simp at hmem

/-- Claim C2: for the cycle A→B→A the closure computation terminates —
expressed in the fuel model as the result being independent of any fuel
at least `maxDepth + 2`, which is exactly the depth-cap termination
argument of `_recursive_get_trans` — and A's transitive set contains B
while B's contains A. -/
theorem C2_cycle_closure_terminates :
    (∀ (fmap : DepMap) (maxDepth fuel : Nat) (target : String),
        maxDepth + 2 ≤ fuel →
        (recTransFuel fmap maxDepth fuel target [] 0 []).1
          = get_transitive_dependencies_for_file fmap target maxDepth) ∧
    "B" ∈ get_transitive_dependencies_for_file cycleMapAB "A" 20 ∧
    "A" ∈ get_transitive_dependencies_for_file cycleMapAB "B" 20 := by
  refine ⟨?_, by decide, by decide⟩
  intro fmap maxDepth fuel target hfuel
  unfold get_transitive_dependencies_for_file
  rw [recTransFuel_stable fmap maxDepth fuel (maxDepth + 2) target [] 0 []
    (by omega) (by omega)]

/-- Witness for C2: fuel 30 exceeds the bound 22 for the default depth cap
20, and computing A's closure in the cycle with that fuel agrees with the
engine's result. -/
theorem C2_cycle_closure_terminates_witness :
    20 + 2 ≤ 30 ∧
    (recTransFuel cycleMapAB 20 30 "A" [] 0 []).1
      = get_transitive_dependencies_for_file cycleMapAB "A" 20 :=
  ⟨by decide, C2_cycle_closure_terminates.1 cycleMapAB 20 30 "A" (by decide)⟩

/-- Claim C3: whenever the target file is present in the analyzed map, its
direct-dependency set is a subset of the transitive set the engine
computes for it (`current_transitive_deps` starts as a copy of the direct
set and only grows). -/
theorem C3_transitive_superset_of_direct (fmap : DepMap) (maxDepth : Nat)
    (target : String) (dd : List String)
    (h : List.lookup target fmap = some dd) :
    dd ⊆ get_transitive_dependencies_for_file fmap target maxDepth := by
  show dd ⊆ (recTransFuel fmap maxDepth (maxDepth + 1 + 1) target [] 0 []).1
  simp only [recTransFuel, h]
  exact foldl_fst_subset _ (transFoldStep_fst_subset fmap _) dd (dd, [])

/-- Witness for C3 on the concrete cycle project: A's direct set `["B"]`
is contained in its computed transitive set. -/
theorem C3_transitive_superset_witness :
    List.lookup "A" cycleMapAB = some ["B"] ∧
    ["B"] ⊆ get_transitive_dependencies_for_file cycleMapAB "A" 20 :=
  ⟨by decide, C3_transitive_superset_of_direct cycleMapAB 20 "A" ["B"] (by decide)⟩

/-- Claim C4 names a real code bug.  For `from . import helper` inside
`pkg/mod.py`, `visit_ImportFrom` discards the imported name and records
only the specifier `"."`; `_resolve_python_import` then splits `"."` into
two empty pieces, computing relative level 2 instead of 1, and neither
candidate (`".py"` at the root, nor the absolute `"/__init__.py"`) exists,
so the extractor returns the empty set where Python's import semantics
(and the spec) require `{pkg/helper.py}`. -/
theorem C4_from_dot_import_yields_empty :
    visit_ImportFrom_specifier none 1 = some "." ∧
    countLeadingEmpties (splitChar '.' ".") = (2, []) ∧
    analyze_dependencies_python_ast "/c" "/p" "pkg/mod.py" ["."]
      ["pkg/__init__.py", "pkg/mod.py", "pkg/helper.py"] = [] ∧
    "pkg/helper.py" ∉ analyze_dependencies_python_ast "/c" "/p" "pkg/mod.py" ["."]
      ["pkg/__init__.py", "pkg/mod.py", "pkg/helper.py"] := by decide

/-- Claim C5: a cache hit returns exactly the cached dependency set, is
tagged `"success (cached)"`, leaves the cache untouched and never invokes
an extractor. -/
theorem C5_cache_hit (parsers : String → Option (String → String → List String))
    (fi : FileInfoL) (cache : List (String × List String)) (d : List String)
    (h : List.lookup fi.path cache = some d) :
    (analyze_single_file_deps_task parsers fi cache).deps = d ∧
    (analyze_single_file_deps_task parsers fi cache).status = "success (cached)" ∧
    (analyze_single_file_deps_task parsers fi cache).extractorInvoked = false ∧
    (analyze_single_file_deps_task parsers fi cache).cacheAfter = cache := by
  unfold analyze_single_file_deps_task
  rw [h]
  exact ⟨rfl, rfl, rfl, rfl⟩

/-- Witness for C5 on a concrete one-entry cache. -/
theorem C5_cache_hit_witness :
    List.lookup "a.py" [("a.py", ["b.py"])] = some ["b.py"] ∧
    ((analyze_single_file_deps_task (fun _ => none) ⟨"a.py", ".py", ""⟩
        [("a.py", ["b.py"])]).deps = ["b.py"] ∧
      (analyze_single_file_deps_task (fun _ => none) ⟨"a.py", ".py", ""⟩
        [("a.py", ["b.py"])]).status = "success (cached)" ∧
      (analyze_single_file_deps_task (fun _ => none) ⟨"a.py", ".py", ""⟩
        [("a.py", ["b.py"])]).extractorInvoked = false ∧
      (analyze_single_file_deps_task (fun _ => none) ⟨"a.py", ".py", ""⟩
        [("a.py", ["b.py"])]).cacheAfter = [("a.py", ["b.py"])]) :=
  ⟨by decide, C5_cache_hit (fun _ => none) ⟨"a.py", ".py", ""⟩
    [("a.py", ["b.py"])] ["b.py"] (by decide)⟩

/-- Claim C6 is false on the literal status string: the code tags a file
without a registered extractor `"skipped (no AST parser)"`, not the
claimed `"skipped (no parser)"`, as this first analysis of a `.xyz` file
shows. -/
theorem C6_counterexample :
    (analyze_single_file_deps_task (fun _ => none) ⟨"data.xyz", ".xyz", ""⟩ []).status
      ≠ "skipped (no parser)" := by decide

/-- Claim C6, amended: the first analysis of a file whose extension has no
registered extractor records an empty dependency set and the status
`"skipped (no AST parser)"`. -/
theorem C6_skipped_status_amended
    (parsers : String → Option (String → String → List String))
    (fi : FileInfoL) (cache : List (String × List String))
    (h1 : List.lookup fi.path cache = none) (h2 : parsers fi.ext = none) :
    (analyze_single_file_deps_task parsers fi cache).deps = [] ∧
    (analyze_single_file_deps_task parsers fi cache).status
      = "skipped (no AST parser)" := by
  unfold analyze_single_file_deps_task
  rw [h1, h2]
  exact ⟨rfl, rfl⟩

/-- Witness for the amended C6 on a `.css` file (an extension absent from
`AST_PARSERS_MAP`). -/
theorem C6_skipped_status_witness :
    List.lookup "style.css" ([] : List (String × List String)) = none ∧
    ((analyze_single_file_deps_task (fun _ => none) ⟨"style.css", ".css", ""⟩ []).deps
        = [] ∧
      (analyze_single_file_deps_task (fun _ => none) ⟨"style.css", ".css", ""⟩ []).status
        = "skipped (no AST parser)") :=
  ⟨by decide, C6_skipped_status_amended (fun _ => none) ⟨"style.css", ".css", ""⟩ []
    (by decide) rfl⟩

/-- Claim C7 is false as universally stated: the input `"../projx/y"` under
root `"/p/proj"` resolves to `"/p/projx/y"`, which escapes the project
root (it is neither the root nor inside the root directory), yet
`normalize_path` returns a path — `"../projx/y"`, which is not even
root-contained — instead of the invalid result, because the containment
check is only a string-prefix test. -/
theorem C7_counterexample :
    normalize_path_abs "/c" "/p/proj" "../projx/y" "" = "/p/projx/y" ∧
    strStarts "/p/projx/y" "/p/proj/" = false ∧
    "/p/projx/y" ≠ "/p/proj" ∧
    normalize_path "/c" "/p/proj" "../projx/y" "" ≠ none := by decide

/-- Claim C7, amended: the normalizer returns the invalid result exactly
when the resolved absolute path fails the string-prefix test against the
project root (so `"../../outside"` from an empty base is rejected);
whenever the prefix test passes it returns the forward-slash normalized
path relative to the root, which for prefix-colliding siblings may begin
with `".."`. -/
theorem C7_prefix_reject_amended :
    (∀ (cwd root p_str base_d : String),
        normalize_path cwd root p_str base_d = none ↔
          strStarts (normalize_path_abs cwd root p_str base_d) root = false) ∧
    normalize_path "/c" "/p/proj" "../../outside" "" = none := by
  refine ⟨?_, by decide⟩
  intro cwd root p_str base_d
  simp only [normalize_path]
  cases hs : strStarts (normalize_path_abs cwd root p_str base_d) root <;> simp [hs]

/-- Claim C8 is false: `os.cpu_count() or 4` falls back to 4 only when the
count is unavailable; a machine reporting 2 CPUs gets a pool of size 2,
below the claimed minimum of 4. -/
theorem C8_counterexample :
    MAX_THREADS (some 2) = 2 ∧ MAX_THREADS (some 2) < 4 := by decide

/-- Claim C8, amended: the worker-pool bound equals the reported CPU count
whenever that count is a positive number, and is 4 only when the count is
unavailable (or zero); there is no floor of 4. -/
theorem C8_pool_size_amended (n : Nat) (h : 0 < n) :
    MAX_THREADS (some n) = n ∧ MAX_THREADS none = 4 ∧ MAX_THREADS (some 0) = 4 := by
  refine ⟨?_, rfl, rfl⟩
  show (if n = 0 then 4 else n) = n
  rw [if_neg (by omega)]

/-- Witness for the amended C8 at a 2-CPU machine. -/
theorem C8_pool_size_witness :
    0 < 2 ∧
    (MAX_THREADS (some 2) = 2 ∧ MAX_THREADS none = 4 ∧ MAX_THREADS (some 0) = 4) :=
  ⟨by decide, C8_pool_size_amended 2 (by decide)⟩

/-- Claim C9: the inside-the-root check of `normalize_path` is a plain
string-prefix test.  With root `"/p/proj"`, the input `"../project2/x"`
resolves to `"/p/project2/x"` — outside the root directory but inside the
sibling `/p/project2` whose name begins with the root's name — and the
normalizer returns the path `"../project2/x"` rather than the invalid
result. -/
theorem C9_prefix_test_leak :
    normalize_path_abs "/c" "/p/proj" "../project2/x" "" = "/p/project2/x" ∧
    strStarts "/p/project2/x" "/p/proj" = true ∧
    strStarts "/p/project2/x" "/p/proj/" = false ∧
    "/p/project2/x" ≠ "/p/proj" ∧
    normalize_path "/c" "/p/proj" "../project2/x" "" = some "../project2/x" := by
  decide

/-- Claim C10: a file without a registered extractor is cached with an
empty set by its first analysis (status `"skipped (no AST parser)"`), so a
second analysis of the same path is a cache hit: empty set, status
`"success (cached)"`, and the skipped status is not reproduced. -/
theorem C10_skip_then_cached
    (parsers : String → Option (String → String → List String))
    (fi : FileInfoL) (cache : List (String × List String))
    (h1 : List.lookup fi.path cache = none) (h2 : parsers fi.ext = none) :
    List.lookup fi.path (analyze_single_file_deps_task parsers fi cache).cacheAfter
      = some [] ∧
    (analyze_single_file_deps_task parsers fi
        (analyze_single_file_deps_task parsers fi cache).cacheAfter).status
      = "success (cached)" ∧
    (analyze_single_file_deps_task parsers fi
        (analyze_single_file_deps_task parsers fi cache).cacheAfter).deps = [] ∧
    (analyze_single_file_deps_task parsers fi
        (analyze_single_file_deps_task parsers fi cache).cacheAfter).status
      ≠ "skipped (no AST parser)" := by
  have hstore : (analyze_single_file_deps_task parsers fi cache).cacheAfter
      = (fi.path, []) :: cache := by
    unfold analyze_single_file_deps_task
    rw [h1, h2]
  have hself : List.lookup fi.path ((fi.path, []) :: cache) = some [] := by
    simp [List.lookup]
  have hsecond : analyze_single_file_deps_task parsers fi ((fi.path, []) :: cache)
      = (⟨fi.path, [], "success (cached)", none, (fi.path, []) :: cache, false,
          none⟩ : TaskOut) := by
    unfold analyze_single_file_deps_task
    rw [hself]
  rw [hstore, hsecond]
  refine ⟨hself, rfl, rfl, ?_⟩
  show ("success (cached)" : String) ≠ "skipped (no AST parser)"
  decide

/-- Witness for C10 on a concrete `.css` file and an initially empty
cache. -/
theorem C10_skip_then_cached_witness :
    List.lookup "style2.css" ([] : List (String × List String)) = none ∧
    (List.lookup "style2.css"
        (analyze_single_file_deps_task (fun _ => none) ⟨"style2.css", ".css", ""⟩
          []).cacheAfter = some [] ∧
      (analyze_single_file_deps_task (fun _ => none) ⟨"style2.css", ".css", ""⟩
        (analyze_single_file_deps_task (fun _ => none) ⟨"style2.css", ".css", ""⟩
          []).cacheAfter).status = "success (cached)") :=
  ⟨by decide,
    ((C10_skip_then_cached (fun _ => none) ⟨"style2.css", ".css", ""⟩ []
      (by decide) rfl).1),
    ((C10_skip_then_cached (fun _ => none) ⟨"style2.css", ".css", ""⟩ []
      (by decide) rfl).2.1)⟩

end CtxGen
